import Mathlib

/-!
Shallow embedding of `src/video_info/video_info.cpp`.

The program collects video metadata, validates the format, and prints a
fixed-layout report.  C++ `double` values are modelled as `ℚ` (all the
arithmetic the program performs is exact on the inputs of interest), C++
`int` as `ℤ`.  The C and C++ library text renderings of floating point
values (`sprintf "%f"`, `%.2f`, and the default `std::ostream` `%g`-style
output) are modelled as functions on `ℚ` using round-half-to-even, which is
how glibc renders a binary double that falls exactly on a decimal tie; the
concrete values appearing in the theorems below are all far from ties, so
the model agrees with the double-precision behaviour there.
-/

namespace VideoInfo

/- Batteries marks the `Rat` field operations `@[irreducible]`, which
blocks `decide` from evaluating the concrete test vectors below; they are
ordinary computable definitions, so restore the default reducibility for
this file. -/
attribute [local semireducible] Rat.mul Rat.add Rat.sub Rat.inv Rat.ofScientific

/-- Floor of a rational as an integer (`q.den` is positive, so flooring the
integer division of numerator by denominator is the floor of `q`). -/
def ratFloor (q : ℚ) : ℤ :=
  Int.fdiv q.num (q.den : ℤ)

/-- Truncation of a rational toward zero; models C++
`static_cast<int>(double)`. -/
def ratTrunc (q : ℚ) : ℤ :=
  Int.tdiv q.num (q.den : ℤ)

/-- Round half to even; models the rounding performed by `printf`-family
fixed-point rendering of a double. -/
def roundHE (q : ℚ) : ℤ :=
  let f := ratFloor q
  let r := q - (f : ℚ)
  if r < 1 / 2 then f
  else if r = 1 / 2 then (if Int.emod f 2 = 0 then f else f + 1)
  else f + 1

/-- Left-pad a string with zeros to the given width (no change when already
wide enough); models `std::setfill('0') << std::setw(w)`. -/
def padZeros (w : ℕ) (s : String) : String :=
  String.mk (List.replicate (w - s.length) '0') ++ s

/-- `%.*f` rendering of a nonnegative rational. -/
def fixedFmtAbs (prec : ℕ) (q : ℚ) : String :=
  let n := (roundHE (q * 10 ^ prec)).toNat
  let ip := n / 10 ^ prec
  let fp := n % 10 ^ prec
  if prec = 0 then toString ip
  else toString ip ++ "." ++ padZeros prec (toString fp)

/-- Models `sprintf "%.*f"` on a double, e.g. what
`std::fixed << std::setprecision(prec)` prints. -/
def fixedFmt (prec : ℕ) (q : ℚ) : String :=
  if q < 0 then "-" ++ fixedFmtAbs prec (-q) else fixedFmtAbs prec q

/-- Models `std::to_string(double)`, which the C++ standard defines as the
text `sprintf(buf, "%f", value)` produces: fixed point with six decimals. -/
def cppToString (q : ℚ) : String :=
  fixedFmt 6 q

/-- Number of decimal digits of `n` beyond the first, by fuelled
structural recursion (the fuel argument makes it kernel-reducible). -/
def natLog10Aux : ℕ → ℕ → ℕ
  | 0, _ => 0
  | fuel + 1, n => if n < 10 then 0 else natLog10Aux fuel (n / 10) + 1

/-- Base-10 logarithm of a natural number, rounded down. -/
def natLog10 (n : ℕ) : ℕ :=
  natLog10Aux n n

/-- Smallest `k ≥ start` with `d ≤ n * 10 ^ k`, found by fuelled search. -/
def negExpAux (n d : ℕ) : ℕ → ℕ → ℕ
  | 0, k => k
  | fuel + 1, k => if d ≤ n * 10 ^ k then k else negExpAux n d fuel (k + 1)

/-- Decimal exponent of a positive rational: the `e` with
`10 ^ e ≤ q < 10 ^ (e + 1)`. -/
def decExp (q : ℚ) : ℤ :=
  if 1 ≤ q then (natLog10 (ratFloor q).toNat : ℤ)
  else -(negExpAux q.num.toNat q.den (natLog10 q.den + 2) 1 : ℤ)

/-- Round a positive rational to six significant decimal digits: returns
`(m, e)` with `10 ^ 5 ≤ m < 10 ^ 6` and `q ≈ m * 10 ^ (e - 5)`. -/
def sig6 (q : ℚ) : ℤ × ℤ :=
  let e := decExp q
  let scaled := if 0 ≤ 5 - e then q * (10 : ℚ) ^ (5 - e).toNat
                else q / (10 : ℚ) ^ (e - 5).toNat
  let m := roundHE scaled
  if m = 10 ^ 6 then (10 ^ 5, e + 1) else (m, e)

/-- Remove trailing zeros of the fractional part, and a then-trailing
decimal point, as `%g` does. -/
def stripFrac (s : String) : String :=
  let r := s.data.reverse.dropWhile (fun c => c = '0')
  let r := match r with
    | '.' :: rest => rest
    | other => other
  String.mk r.reverse

/-- `%g` (precision 6) rendering of a positive rational. -/
def defaultFmtPos (q : ℚ) : String :=
  let p := sig6 q
  let m := p.1
  let e := p.2
  let digits := toString m.toNat
  if -4 ≤ e ∧ e ≤ 5 then
    if 0 ≤ e then
      stripFrac (digits.take (e.toNat + 1) ++ "." ++ digits.drop (e.toNat + 1))
    else
      stripFrac ("0." ++ String.mk (List.replicate (-e - 1).toNat '0') ++ digits)
  else
    let mant := stripFrac (digits.take 1 ++ "." ++ digits.drop 1)
    let esign := if e < 0 then "-" else "+"
    let eabs := padZeros 2 (toString e.natAbs)
    mant ++ "e" ++ esign ++ eabs

/-- Models the default `std::ostream` rendering of a double (`%g`-style,
precision 6), used by the program for the frame rate. -/
def defaultFmt (q : ℚ) : String :=
  if q = 0 then "0"
  else if q < 0 then "-" ++ defaultFmtPos (-q)
  else defaultFmtPos q

/-! ## The program's data model and operations -/

/-- `MediaFile::isValidFormat`: membership of `format` in `validFormats`
via `std::find`, i.e. exact string equality. -/
def isValidFormat (format : String) (validFormats : List String) : Bool :=
  validFormats.contains format

/-- `VideoFile::supportedFormats`. -/
def supportedFormats : List String :=
  [".mp4", ".mkv", ".avi", ".mov"]

/-- The message of the `std::invalid_argument` thrown by
`VideoFile::validateFormat`. -/
def unsupportedFormatMsg : String :=
  "Unsupported video format. Supported formats: mp4, mkv, avi, mov"

/-- `MediaFile::formatSize`: pick the largest 1024-based unit whose
threshold the value meets (`>=`), divide, render with
`std::to_string`, and append the unit label. -/
def formatSize (size_in_bytes : ℚ) : String :=
  let KB : ℚ := 1024
  let MB : ℚ := KB * 1024
  let GB : ℚ := MB * 1024
  if size_in_bytes ≥ GB then cppToString (size_in_bytes / GB) ++ " GB"
  else if size_in_bytes ≥ MB then cppToString (size_in_bytes / MB) ++ " MB"
  else if size_in_bytes ≥ KB then cppToString (size_in_bytes / KB) ++ " KB"
  else cppToString size_in_bytes ++ " bytes"

/-- The fields of a constructed `VideoFile` object (base-class members
`filename`, `duration`, `size`, `format` together with the `VideoFile`
members). -/
structure VideoFile where
  filename : String
  duration : ℚ
  size : ℚ
  format : String
  width : ℤ
  height : ℤ
  frameRate : ℚ
  videoCodec : String
deriving DecidableEq, Repr

/-- The `VideoFile` constructor: initialises every member and then runs
`validateFormat`, which throws `std::invalid_argument` when the format is
not in `supportedFormats`; a throw aborts construction, modelled as
`Except.error` carrying the exception message. -/
def mkVideoFile (name : String) (dur : ℚ) (sz : ℚ) (fmt : String)
    (w : ℤ) (h : ℤ) (fps : ℚ) (codec : String) : Except String VideoFile :=
  if isValidFormat fmt supportedFormats then
    Except.ok ⟨name, dur, sz, fmt, w, h, fps, codec⟩
  else
    Except.error unsupportedFormatMsg

/-- `VideoFile::calculateBitrate`: `(size * 8) / (duration * 1000000)`,
reading the `size` and `duration` members. -/
def calculateBitrate (size : ℚ) (duration : ℚ) : ℚ :=
  (size * 8) / (duration * 1000000)

/-- `VideoFile::getResolutionName`, reading the `width` and `height`
members: a chain of `if` tests in priority order. -/
def getResolutionName (width : ℤ) (height : ℤ) : String :=
  if 3840 ≤ width ∧ 2160 ≤ height then "4K"
  else if 1920 ≤ width ∧ 1080 ≤ height then "1080p"
  else if 1280 ≤ width ∧ 720 ≤ height then "720p"
  else "SD"

/-- The `Duration:` value of the report: `hours`, `minutes`, `seconds` are
C++ `int`s obtained from `static_cast<int>(duration)` by truncating
division and modulo; hours printed bare, minutes and seconds through
`std::setfill('0') << std::setw(2)`. -/
def durationHMS (duration : ℚ) : String :=
  let t := ratTrunc duration
  let hours := Int.tdiv t 3600
  let minutes := Int.tdiv (Int.tmod t 3600) 60
  let seconds := Int.tmod t 60
  toString hours ++ ":" ++ padZeros 2 (toString minutes) ++ ":"
    ++ padZeros 2 (toString seconds)

/-- `VideoFile::displayInfo`: the report printed to standard output, as a
list of lines (the leading `"\n"` of the header appears as an empty first
line). -/
def displayInfo (v : VideoFile) : List String :=
  [ "",
    "=== Video Information ===",
    "Filename: " ++ v.filename ++ v.format,
    "Duration: " ++ durationHMS v.duration,
    "Size: " ++ formatSize v.size,
    "Resolution: " ++ toString v.width ++ "x" ++ toString v.height
      ++ " (" ++ getResolutionName v.width v.height ++ ")",
    "Frame Rate: " ++ defaultFmt v.frameRate ++ " fps",
    "Video Codec: " ++ v.videoCodec,
    "Bitrate: " ++ fixedFmt 2 (calculateBitrate v.size v.duration) ++ " Mbps",
    "=====================" ]

/-- Outcome of a run of `main` after the seven fields have been collected:
the process exit code, what was written to standard error, and the report
written to standard output (if any). -/
structure ProgResult where
  exitCode : ℕ
  errOutput : String
  report : Option (List String)
deriving DecidableEq, Repr

/-- The tail of `main`: construct the `VideoFile` and display it; a thrown
exception is caught at top level, printed to `std::cerr` as
`Error: <message>`, and turns into exit status 1; otherwise the report is
printed and the exit status is 0. -/
def runProgram (name : String) (dur : ℚ) (sz : ℚ) (fmt : String)
    (w : ℤ) (h : ℤ) (fps : ℚ) (codec : String) : ProgResult :=
  match mkVideoFile name dur sz fmt w h fps codec with
  | Except.ok v => ⟨0, "", some (displayInfo v)⟩
  | Except.error msg => ⟨1, "Error: " ++ msg, none⟩

/-! ## The input collector

`std::cin` is modelled as a list of input lines, each line a list of
whitespace-separated tokens.  `std::cin >> x` skips whitespace (including
newlines) and extracts the next token; on a failed extraction the loop
body runs `std::cin.clear()` and `std::cin.ignore(10000, '\n')`, which
discards everything up to and including the next newline — i.e. the rest
of the current line.  Extraction of a token is modelled all-or-nothing by
a decimal parser (sign, digits, optional fractional part); the exotic
lexemes `num_get` would split (such as `12abc`) or accept (such as `1e5`)
do not occur in the spec's scenarios. -/

/-- Numeric value of a list of decimal digit characters. -/
def digitsToNat (cs : List Char) : ℕ :=
  cs.foldl (fun a c => 10 * a + (c.toNat - '0'.toNat)) 0

/-- Parse an unsigned decimal token: digits with an optional fractional
part, at least one digit in total. -/
def parseUnsigned (cs : List Char) : Option ℚ :=
  let ip := cs.takeWhile Char.isDigit
  match cs.dropWhile Char.isDigit with
  | [] => if ip.isEmpty then none else some (digitsToNat ip : ℚ)
  | '.' :: fr =>
      if fr.all Char.isDigit ∧ ¬(ip.isEmpty ∧ fr.isEmpty) then
        some ((digitsToNat ip : ℚ) + (digitsToNat fr : ℚ) / (10 ^ fr.length : ℚ))
      else none
  | _ => none

/-- Models `std::cin >> (double&)` on one token. -/
def parseNumber (s : String) : Option ℚ :=
  match s.data with
  | '-' :: cs => (parseUnsigned cs).map (fun q => -q)
  | '+' :: cs => parseUnsigned cs
  | cs => parseUnsigned cs

/-- Parse a signed integer token of decimal digits. -/
def parseIntSigned (neg : Bool) (cs : List Char) : Option ℤ :=
  if cs ≠ [] ∧ cs.all Char.isDigit then
    some (if neg then -(digitsToNat cs : ℤ) else (digitsToNat cs : ℤ))
  else none

/-- Models `std::cin >> (int&)` on one token. -/
def parseIntTok (s : String) : Option ℤ :=
  match s.data with
  | '-' :: cs => parseIntSigned true cs
  | '+' :: cs => parseIntSigned false cs
  | cs => parseIntSigned false cs

/-- The per-field retry loop `while (!(std::cin >> x) || x <= 0) { ... }`
for a `double` field.  Returns the accepted value, the remaining input,
and the number of failed attempts (= re-prompts with the field-specific
message); `none` when the input is exhausted before a valid value (the
real loop would then retry forever against a failed stream). -/
def readPositiveNum : List (List String) → Option (ℚ × List (List String) × ℕ)
  | [] => none
  | [] :: rest => readPositiveNum rest
  | (t :: ts) :: rest =>
      match parseNumber t with
      | some v =>
          if 0 < v then some (v, ts :: rest, 0)
          else (readPositiveNum rest).map (fun r => (r.1, r.2.1, r.2.2 + 1))
      | none => (readPositiveNum rest).map (fun r => (r.1, r.2.1, r.2.2 + 1))

/-- The same retry loop for an `int` field (width, height). -/
def readPositiveInt : List (List String) → Option (ℤ × List (List String) × ℕ)
  | [] => none
  | [] :: rest => readPositiveInt rest
  | (t :: ts) :: rest =>
      match parseIntTok t with
      | some v =>
          if 0 < v then some (v, ts :: rest, 0)
          else (readPositiveInt rest).map (fun r => (r.1, r.2.1, r.2.2 + 1))
      | none => (readPositiveInt rest).map (fun r => (r.1, r.2.1, r.2.2 + 1))

/-- Modelled from the spec's words, for comparison with the code's
display: a value "truncated to 2 decimal places" (fraction digits cut
off, no rounding). -/
def truncTo2Spec (q : ℚ) : String :=
  let n := (ratTrunc (q * 100)).toNat
  toString (n / 100) ++ "." ++ padZeros 2 (toString (n % 100))

/-! ## Helper lemmas -/

/-- `isValidFormat` is exact membership. -/
theorem isValidFormat_iff (s : String) (l : List String) :
    isValidFormat s l = true ↔ s ∈ l := by
  simp [isValidFormat]

/-- Every value the `double` retry loop accepts is strictly positive. -/
theorem readPositiveNum_pos :
    ∀ lines v rest k, readPositiveNum lines = some (v, rest, k) → 0 < v
  | [], v, r, k, h => by simp [readPositiveNum] at h
  | [] :: rest, v, r, k, h =>
      readPositiveNum_pos rest v r k (by simpa [readPositiveNum] using h)
  | (t :: ts) :: rest, v, r, k, h => by
      simp only [readPositiveNum] at h
      cases hp : parseNumber t with
      | some q =>
          rw [hp] at h
          by_cases hq : 0 < q
          · simp only [if_pos hq, Option.some.injEq] at h
            obtain ⟨rfl, -⟩ := Prod.mk.injEq .. ▸ h
            exact hq
          · simp only [if_neg hq, Option.map_eq_some'] at h
            obtain ⟨⟨v', r', k'⟩, hr, he⟩ := h
            obtain ⟨rfl, -⟩ := Prod.mk.injEq .. ▸ he
            exact readPositiveNum_pos rest v' r' k' hr
      | none =>
          rw [hp] at h
          simp only [Option.map_eq_some'] at h
          obtain ⟨⟨v', r', k'⟩, hr, he⟩ := h
          obtain ⟨rfl, -⟩ := Prod.mk.injEq .. ▸ he
          exact readPositiveNum_pos rest v' r' k' hr

/-- Every value the `int` retry loop accepts is strictly positive. -/
theorem readPositiveInt_pos :
    ∀ lines v rest k, readPositiveInt lines = some (v, rest, k) → 0 < v
  | [], v, r, k, h => by simp [readPositiveInt] at h
  | [] :: rest, v, r, k, h =>
      readPositiveInt_pos rest v r k (by simpa [readPositiveInt] using h)
  | (t :: ts) :: rest, v, r, k, h => by
      simp only [readPositiveInt] at h
      cases hp : parseIntTok t with
      | some q =>
          rw [hp] at h
          by_cases hq : 0 < q
          · simp only [if_pos hq, Option.some.injEq] at h
            obtain ⟨rfl, -⟩ := Prod.mk.injEq .. ▸ h
            exact hq
          · simp only [if_neg hq, Option.map_eq_some'] at h
            obtain ⟨⟨v', r', k'⟩, hr, he⟩ := h
            obtain ⟨rfl, -⟩ := Prod.mk.injEq .. ▸ he
            exact readPositiveInt_pos rest v' r' k' hr
      | none =>
          rw [hp] at h
          simp only [Option.map_eq_some'] at h
          obtain ⟨⟨v', r', k'⟩, hr, he⟩ := h
          obtain ⟨rfl, -⟩ := Prod.mk.injEq .. ▸ he
          exact readPositiveInt_pos rest v' r' k' hr

/-! ## Claim theorems -/

/-- C1, counterexample: the spec's vector `(3840, 1000) → "SD"` is wrong —
height 1000 meets the 720p height threshold, so the code returns
`"720p"`, not `"SD"`. -/
theorem c1_counterexample :
    getResolutionName 3840 1000 = "720p" ∧ getResolutionName 3840 1000 ≠ "SD" := by
  decide

/-- C1 (amended): `getResolutionName` checks the 4K, 1080p, 720p
thresholds in priority order with the first match winning, else `"SD"`;
on the vectors, `(3840,2160) → "4K"`, `(1920,1080) → "1080p"`,
`(1280,720) → "720p"`, `(640,480) → "SD"`, and `(3840,1000) → "720p"`
(not `"SD"`: height 1000 meets the 720 threshold). -/
theorem c1_resolution_priority :
    (∀ w h : ℤ,
      (3840 ≤ w ∧ 2160 ≤ h → getResolutionName w h = "4K") ∧
      (¬(3840 ≤ w ∧ 2160 ≤ h) → 1920 ≤ w ∧ 1080 ≤ h →
        getResolutionName w h = "1080p") ∧
      (¬(3840 ≤ w ∧ 2160 ≤ h) → ¬(1920 ≤ w ∧ 1080 ≤ h) →
        1280 ≤ w ∧ 720 ≤ h → getResolutionName w h = "720p") ∧
      (¬(3840 ≤ w ∧ 2160 ≤ h) → ¬(1920 ≤ w ∧ 1080 ≤ h) →
        ¬(1280 ≤ w ∧ 720 ≤ h) → getResolutionName w h = "SD")) ∧
    getResolutionName 3840 2160 = "4K" ∧
    getResolutionName 1920 1080 = "1080p" ∧
    getResolutionName 1280 720 = "720p" ∧
    getResolutionName 640 480 = "SD" ∧
    getResolutionName 3840 1000 = "720p" := by
  refine ⟨fun w h => ⟨?_, ?_, ?_, ?_⟩,
    by decide, by decide, by decide, by decide, by decide⟩
  · intro h1; simp [getResolutionName, h1]
  · intro h1 h2; simp [getResolutionName, h1, h2]
  · intro h1 h2 h3; simp [getResolutionName, h1, h2, h3]
  · intro h1 h2 h3; simp [getResolutionName, h1, h2, h3]

/-- C1 witness: the 1080p branch applied at `(1920, 1080)`. -/
theorem c1_resolution_priority_witness :
    getResolutionName 1920 1080 = "1080p" :=
  (c1_resolution_priority.1 1920 1080).2.1 (by decide) (by decide)

/-- C3, counterexample: `std::to_string(double)` renders with six fixed
decimals, so `formatSize 500` is `"500.000000 bytes"`, not the spec's
`"500 bytes"`. -/
theorem c3_counterexample :
    formatSize 500 = "500.000000 bytes" ∧ formatSize 500 ≠ "500 bytes" := by
  decide

/-- C3 (amended): `formatSize` picks the largest 1024-based unit whose
threshold the value meets or exceeds (using `>=`), divides by it, renders
the quotient with `std::to_string` — fixed six decimal places — and
appends the unit label; the vectors therefore read
`500 → "500.000000 bytes"`, `2048 → "2.000000 KB"`,
`1048576 → "1.000000 MB"`, `1073741824 → "1.000000 GB"`, and the `>=`
boundary `1024 → "1.000000 KB"`. -/
theorem c3_formatSize_units :
    (∀ q : ℚ, 1024 * 1024 * 1024 ≤ q →
      formatSize q = cppToString (q / (1024 * 1024 * 1024)) ++ " GB") ∧
    (∀ q : ℚ, ¬(1024 * 1024 * 1024 ≤ q) → 1024 * 1024 ≤ q →
      formatSize q = cppToString (q / (1024 * 1024)) ++ " MB") ∧
    (∀ q : ℚ, ¬(1024 * 1024 * 1024 ≤ q) → ¬(1024 * 1024 ≤ q) → 1024 ≤ q →
      formatSize q = cppToString (q / 1024) ++ " KB") ∧
    (∀ q : ℚ, ¬(1024 ≤ q) → formatSize q = cppToString q ++ " bytes") ∧
    formatSize 500 = "500.000000 bytes" ∧
    formatSize 2048 = "2.000000 KB" ∧
    formatSize 1048576 = "1.000000 MB" ∧
    formatSize 1073741824 = "1.000000 GB" ∧
    formatSize 1024 = "1.000000 KB" := by
  refine ⟨?_, ?_, ?_, ?_, by decide, by decide, by decide, by decide, by decide⟩
  · intro q h1
    simp only [formatSize, ge_iff_le]
    rw [if_pos h1]
  · intro q h1 h2
    simp only [formatSize, ge_iff_le]
    rw [if_neg h1, if_pos h2]
  · intro q h1 h2 h3
    simp only [formatSize, ge_iff_le]
    rw [if_neg h1, if_neg h2, if_pos h3]
  · intro q h1
    have h2 : ¬((1024 : ℚ) * 1024 ≤ q) := fun hc => h1 (by linarith)
    have h3 : ¬((1024 : ℚ) * 1024 * 1024 ≤ q) := fun hc => h1 (by linarith)
    simp only [formatSize, ge_iff_le]
    rw [if_neg h3, if_neg h2, if_neg h1]

/-- C3 witness: the GB branch applied at `1073741824`. -/
theorem c3_formatSize_units_witness :
    formatSize 1073741824 = cppToString (1073741824 / (1024 * 1024 * 1024) : ℚ) ++ " GB" :=
  c3_formatSize_units.1 1073741824 (by norm_num)

/-- C10: format membership is exact, case-sensitive string equality
against the four literals; uppercase variants, the extension without the
dot, and strings with surrounding whitespace are all rejected. -/
theorem c10_format_exact_match :
    (∀ s : String, isValidFormat s supportedFormats = true ↔
      (s = ".mp4" ∨ s = ".mkv" ∨ s = ".avi" ∨ s = ".mov")) ∧
    isValidFormat ".MP4" supportedFormats = false ∧
    isValidFormat "mp4" supportedFormats = false ∧
    isValidFormat " .mp4" supportedFormats = false ∧
    isValidFormat ".mp4 " supportedFormats = false ∧
    isValidFormat ".Mp4" supportedFormats = false ∧
    isValidFormat ".mp4" supportedFormats = true := by
  refine ⟨fun s => ?_, by decide, by decide, by decide, by decide, by decide, by decide⟩
  rw [isValidFormat_iff]
  simp [supportedFormats]

/-- C5: constructing a `VideoFile` fails if and only if the format is not
one of the four supported literals; the only error it can raise is the
unsupported-format message; `".wmv"` is rejected and `".mp4"` accepted. -/
theorem c5_construct_validates_format :
    (∀ (name : String) (dur sz : ℚ) (fmt : String) (w h : ℤ) (fps : ℚ)
        (codec : String),
      (∃ v, mkVideoFile name dur sz fmt w h fps codec = Except.ok v) ↔
        fmt ∈ supportedFormats) ∧
    (∀ (name : String) (dur sz : ℚ) (fmt : String) (w h : ℤ) (fps : ℚ)
        (codec : String) (m : String),
      mkVideoFile name dur sz fmt w h fps codec = Except.error m →
        m = unsupportedFormatMsg ∧ fmt ∉ supportedFormats) ∧
    mkVideoFile "video" 1 1 ".wmv" 1 1 1 "c" = Except.error unsupportedFormatMsg ∧
    (∃ v, mkVideoFile "video" 1 1 ".mp4" 1 1 1 "c" = Except.ok v) := by
  refine ⟨?_, ?_, by rfl, ⟨_, by rfl⟩⟩
  · intro name dur sz fmt w h fps codec
    rw [← isValidFormat_iff]
    unfold mkVideoFile
    by_cases hv : isValidFormat fmt supportedFormats = true
    · simp [hv]
    · simp [Bool.not_eq_true] at hv
      simp [hv]
  · intro name dur sz fmt w h fps codec m hm
    unfold mkVideoFile at hm
    by_cases hv : isValidFormat fmt supportedFormats = true
    · rw [if_pos hv] at hm
      exact absurd hm (by simp)
    · simp [Bool.not_eq_true] at hv
      rw [hv] at hm
      simp only [Bool.false_eq_true, if_false, Except.error.injEq] at hm
      refine ⟨hm.symm, ?_⟩
      rw [← isValidFormat_iff, hv]
      simp

/-- C5 witness: the error branch applied to the `".wmv"` construction. -/
theorem c5_construct_validates_format_witness :
    "Unsupported video format. Supported formats: mp4, mkv, avi, mov"
      = unsupportedFormatMsg ∧ ".wmv" ∉ supportedFormats :=
  c5_construct_validates_format.2.1 "video" 1 1 ".wmv" 1 1 1 "c" _ (by rfl)

/-- C6: when format validation fails the program writes
`Error: <message>` to standard error, produces no report and exits with
status 1; when construction succeeds the report is printed, nothing goes
to standard error, and the exit status is 0. -/
theorem c6_exit_codes :
    ∀ (name : String) (dur sz : ℚ) (fmt : String) (w h : ℤ) (fps : ℚ)
      (codec : String),
      (fmt ∉ supportedFormats →
        runProgram name dur sz fmt w h fps codec =
          ⟨1, "Error: " ++ unsupportedFormatMsg, none⟩) ∧
      (fmt ∈ supportedFormats →
        (runProgram name dur sz fmt w h fps codec).exitCode = 0 ∧
        (runProgram name dur sz fmt w h fps codec).errOutput = "" ∧
        ∃ v, mkVideoFile name dur sz fmt w h fps codec = Except.ok v ∧
          (runProgram name dur sz fmt w h fps codec).report =
            some (displayInfo v)) := by
  intro name dur sz fmt w h fps codec
  constructor
  · intro hno
    have hv : isValidFormat fmt supportedFormats = false := by
      rw [← Bool.not_eq_true, isValidFormat_iff]
      exact hno
    unfold runProgram mkVideoFile
    rw [hv]
    simp
  · intro hyes
    have hv : isValidFormat fmt supportedFormats = true :=
      (isValidFormat_iff fmt supportedFormats).mpr hyes
    unfold runProgram mkVideoFile
    rw [hv]
    exact ⟨rfl, rfl, _, rfl, rfl⟩

/-- C6 witness: the failure branch at a `".wmv"` run and the success
branch at a `".mp4"` run. -/
theorem c6_exit_codes_witness :
    runProgram "video" 1 1 ".wmv" 1 1 1 "c" =
      ⟨1, "Error: " ++ unsupportedFormatMsg, none⟩ ∧
    (runProgram "video" 1 1 ".mp4" 1 1 1 "c").exitCode = 0 :=
  ⟨(c6_exit_codes "video" 1 1 ".wmv" 1 1 1 "c").1 (by decide),
   ((c6_exit_codes "video" 1 1 ".mp4" 1 1 1 "c").2 (by decide)).1⟩

/-- C9: the constructor checks only format membership — any tuple with a
supported format constructs successfully, even with zero or negative
numeric fields; strict positivity is enforced solely by the input
collector's retry loops. -/
theorem c9_no_positivity_check :
    (∀ (name : String) (dur sz : ℚ) (fmt : String) (w h : ℤ) (fps : ℚ)
        (codec : String),
      fmt ∈ supportedFormats →
        mkVideoFile name dur sz fmt w h fps codec =
          Except.ok ⟨name, dur, sz, fmt, w, h, fps, codec⟩) ∧
    mkVideoFile "f" (-1) 0 ".mp4" (-2) 0 (-3) "c" =
      Except.ok ⟨"f", -1, 0, ".mp4", -2, 0, -3, "c"⟩ ∧
    (∀ lines v rest k, readPositiveNum lines = some (v, rest, k) → 0 < v) ∧
    (∀ lines v rest k, readPositiveInt lines = some (v, rest, k) → 0 < v) := by
  refine ⟨?_, by rfl, readPositiveNum_pos, readPositiveInt_pos⟩
  intro name dur sz fmt w h fps codec hyes
  have hv : isValidFormat fmt supportedFormats = true :=
    (isValidFormat_iff fmt supportedFormats).mpr hyes
  unfold mkVideoFile
  rw [hv]
  simp

/-- C9 witness: a record with negative duration, zero size, negative
width and frame rate constructs successfully under format `".mp4"`. -/
theorem c9_no_positivity_check_witness :
    mkVideoFile "f" (-5) (-5) ".mkv" (-5) (-5) (-5) "c" =
      Except.ok ⟨"f", -5, -5, ".mkv", -5, -5, -5, "c"⟩ :=
  c9_no_positivity_check.1 "f" (-5) (-5) ".mkv" (-5) (-5) (-5) "c" (by decide)

/-- The truncation of an integer back through `ℚ` is the identity. -/
theorem ratTrunc_intCast (k : ℤ) : ratTrunc ((k : ℤ) : ℚ) = k := by
  unfold ratTrunc
  rw [Rat.num_intCast, Rat.den_intCast, Nat.cast_one, Int.tdiv_one]

/-- Truncating a rational that is a natural number gives that number. -/
theorem ratTrunc_natCast (n : ℕ) : ratTrunc ((n : ℕ) : ℚ) = Int.ofNat n := by
  unfold ratTrunc
  rw [Rat.num_natCast, Rat.den_natCast, Nat.cast_one, Int.tdiv_one]
  rfl

/-- C2, counterexample: the display uses `std::fixed <<
std::setprecision(2)`, which rounds to nearest rather than truncating: at
size 104857600 bytes and duration 3661 s the bitrate ≈ 0.22913 Mbps is
displayed as `0.23`, while truncation to 2 decimal places would give
`0.22`. -/
theorem c2_counterexample :
    fixedFmt 2 (calculateBitrate 104857600 3661) = "0.23" ∧
    truncTo2Spec (calculateBitrate 104857600 3661) = "0.22" ∧
    fixedFmt 2 (calculateBitrate 104857600 3661) ≠
      truncTo2Spec (calculateBitrate 104857600 3661) := by
  decide

/-- C2 (amended): for all positive duration and size,
`calculateBitrate` returns exactly `(size * 8) / (duration * 1000000)`,
a pure function of size and duration with no internal rounding; the
displayed bitrate is this value rendered in fixed-point notation with 2
decimal places, rounded to nearest (not truncated). -/
theorem c2_bitrate_formula :
    ∀ (size duration : ℚ), 0 < duration → 0 < size →
      calculateBitrate size duration = (size * 8) / (duration * 1000000) ∧
      ∀ v : VideoFile, v.size = size → v.duration = duration →
        (displayInfo v)[8]? =
          some ("Bitrate: " ++ fixedFmt 2 (calculateBitrate size duration)
            ++ " Mbps") := by
  intro size duration hd hs
  refine ⟨rfl, ?_⟩
  intro v hs' hd'
  rw [← hs', ← hd']
  rfl

/-- C2 witness: the bitrate formula at the spec's end-to-end vector. -/
theorem c2_bitrate_formula_witness :
    calculateBitrate 104857600 3661 = (104857600 * 8) / (3661 * 1000000) :=
  (c2_bitrate_formula 104857600 3661 (by norm_num) (by norm_num)).1

/-- C4: the duration is rendered as `H:MM:SS` — hours unpadded, minutes
and seconds zero-padded to 2 digits — computed by integer division and
modulo on the duration truncated to an integer, so sub-second precision
is discarded; `3661 → "1:01:01"`, `59 → "0:00:59"`, `3600 → "1:00:00"`. -/
theorem c4_duration_format :
    (∀ n : ℕ, durationHMS (n : ℚ) =
      toString (n / 3600) ++ ":" ++ padZeros 2 (toString ((n % 3600) / 60))
        ++ ":" ++ padZeros 2 (toString (n % 60))) ∧
    (∀ d : ℚ, durationHMS d = durationHMS ((ratTrunc d : ℤ) : ℚ)) ∧
    durationHMS 3661 = "1:01:01" ∧
    durationHMS 59 = "0:00:59" ∧
    durationHMS 3600 = "1:00:00" ∧
    durationHMS (36615 / 10) = "1:01:01" := by
  refine ⟨?_, ?_, by decide, by decide, by decide, by decide⟩
  · intro n
    simp only [durationHMS]
    rw [ratTrunc_natCast]
    rfl
  · intro d
    simp only [durationHMS, ratTrunc_intCast]

/-- C7: each numeric retry loop accepts only an input that parses and is
strictly positive; a parse failure or non-positive value discards the
rest of the input line and re-prompts; a non-numeric token such as
`"abc"` never advances past the field, and the next valid numeric input
is accepted. -/
theorem c7_numeric_retry :
    (∀ lines v rest k, readPositiveNum lines = some (v, rest, k) → 0 < v) ∧
    (∀ lines v rest k, readPositiveInt lines = some (v, rest, k) → 0 < v) ∧
    (∀ t ts ts' rest, parseNumber t = none →
      readPositiveNum ((t :: ts) :: rest) =
        readPositiveNum ((t :: ts') :: rest)) ∧
    (∀ t q ts ts' rest, parseNumber t = some q → q ≤ 0 →
      readPositiveNum ((t :: ts) :: rest) =
        readPositiveNum ((t :: ts') :: rest)) ∧
    readPositiveNum [["abc"], ["120"]] = some (120, [[]], 1) ∧
    readPositiveNum [["abc", "77"], ["120"]] = some (120, [[]], 1) ∧
    readPositiveInt [["abc"], ["1920"]] = some (1920, [[]], 1) := by
  refine ⟨readPositiveNum_pos, readPositiveInt_pos, ?_, ?_,
    by decide, by decide, by decide⟩
  · intro t ts ts' rest hp
    simp only [readPositiveNum, hp]
  · intro t q ts ts' rest hp hq
    simp only [readPositiveNum, hp, if_neg (not_lt.mpr hq)]

/-- C7 witness: the positivity guarantee applied to the run that accepts
`120` immediately. -/
theorem c7_numeric_retry_witness : (0 : ℚ) < 120 :=
  c7_numeric_retry.1 [["120"]] 120 [[]] 0 (by decide)

/-- C8: the report has exactly the fixed line layout — header, then the
`Filename:` line concatenating filename and format with no separator,
then Duration, Size, Resolution as `<W>x<H> (<Class>)`, Frame Rate with a
`" fps"` suffix, Video Codec, Bitrate, and the footer; grounded on the
spec's end-to-end example record. -/
theorem c8_report_layout :
    (∀ v : VideoFile,
      (displayInfo v).length = 10 ∧
      (displayInfo v)[0]? = some "" ∧
      (displayInfo v)[1]? = some "=== Video Information ===" ∧
      (displayInfo v)[2]? = some ("Filename: " ++ v.filename ++ v.format) ∧
      (displayInfo v)[3]? = some ("Duration: " ++ durationHMS v.duration) ∧
      (displayInfo v)[4]? = some ("Size: " ++ formatSize v.size) ∧
      (displayInfo v)[5]? = some ("Resolution: " ++ toString v.width ++ "x"
        ++ toString v.height ++ " (" ++ getResolutionName v.width v.height ++ ")") ∧
      (displayInfo v)[6]? = some ("Frame Rate: " ++ defaultFmt v.frameRate ++ " fps") ∧
      (displayInfo v)[7]? = some ("Video Codec: " ++ v.videoCodec) ∧
      (displayInfo v)[8]? = some ("Bitrate: "
        ++ fixedFmt 2 (calculateBitrate v.size v.duration) ++ " Mbps") ∧
      (displayInfo v)[9]? = some "=====================") ∧
    displayInfo ⟨"movie", 3661, 104857600, ".mp4", 1920, 1080, 2997 / 100, "H.264"⟩ =
      ["", "=== Video Information ===", "Filename: movie.mp4",
       "Duration: 1:01:01", "Size: 100.000000 MB",
       "Resolution: 1920x1080 (1080p)", "Frame Rate: 29.97 fps",
       "Video Codec: H.264", "Bitrate: 0.23 Mbps",
       "====================="] := by
  exact ⟨fun v => ⟨rfl, rfl, rfl, rfl, rfl, rfl, rfl, rfl, rfl, rfl, rfl⟩, by decide⟩

end VideoInfo
